import Mathlib

/-!
Shallow embedding of the `rm` OPC UA wrapper module (rmvl, modules/opcua):
the typed variable containers `VariableType` and `Variable`
(include/rmvl/opcua/variable.hpp), the client monitored-item bookkeeping and
the `ClientTimer` lifecycle (include/rmvl/opcua/client.hpp), and the
UDP-UADP publisher configuration logic (src/publisher.cpp).

C++ template type parameters are embedded as a `TypeId` inductive covering
the fundamental types admitted by the `enable_if` constraints, with an
interpretation function giving each a Lean carrier.  `std::any` becomes a
tagged value; `std::any_cast` (which throws on a tag mismatch) becomes an
`Option`-returning cast.  Machine integers are `Nat` with explicit `% 2^32`
where the C++ code narrows to `UA_UInt32`.
-/

namespace RmOpcua

/-- The C++ scalar types admitted by the `std::is_fundamental_v<DecayT> ||
std::is_same_v<DecayT, const char *>` constraint of `VariableType` /
`Variable` constructors (variable.hpp lines 78-89, 126-137), one constructor
per distinct `typeid`. -/
inductive TypeId
  | tBool
  | tSByte
  | tByte
  | tInt16
  | tUInt16
  | tInt32
  | tUInt32
  | tInt64
  | tUInt64
  | tFloat
  | tDouble
  | tCString
  deriving DecidableEq, Repr

/-- Lean carrier for each embedded C++ scalar type.  Signed integral types
carry `Int`, unsigned ones `Nat`, the floating types `Float`, and
`const char *` a `String`.  Only storage and retrieval are modelled (the
wrapper performs no arithmetic on the stored payload), so the exact carrier
is immaterial to the theorems. -/
abbrev TypeId.interp : TypeId → Type
  | .tBool => Bool
  | .tSByte => Int
  | .tByte => Nat
  | .tInt16 => Int
  | .tUInt16 => Nat
  | .tInt32 => Int
  | .tUInt32 => Nat
  | .tInt64 => Int
  | .tUInt64 => Nat
  | .tFloat => Float
  | .tDouble => Float
  | .tCString => String

/-- Modelled from the spec: `DataType` (declared in utilities.hpp, which is
not under src/) wraps `typeid` information and converts it to the wrapped
library's `UA_TYPES_<xxx>` index; the unit tests pin `double ↦ UA_TYPES_DOUBLE`,
`int ↦ UA_TYPES_INT32` and `const char * ↦ UA_TYPES_STRING`.  The indices
below are the open62541 builtin-type indices. -/
def DataType : TypeId → Nat
  | .tBool => 0
  | .tSByte => 1
  | .tByte => 2
  | .tInt16 => 3
  | .tUInt16 => 4
  | .tInt32 => 5
  | .tUInt32 => 6
  | .tInt64 => 7
  | .tUInt64 => 8
  | .tFloat => 9
  | .tDouble => 10
  | .tCString => 11

/-- Embeds `std::any` as used by the variable containers: empty (default
construction), a scalar of some embedded type, or a `std::vector` of some
embedded element type. -/
inductive CppAny
  | anyNone
  | scalar (t : TypeId) (v : t.interp)
  | vec (t : TypeId) (vs : List t.interp)

/-- Embeds `std::any_cast<Tp>` at scalar type `t`: succeeds with the stored value
exactly when the stored `typeid` is `t` (a mismatch throws
`std::bad_any_cast` in C++, embedded as `none`). -/
def CppAny.castScalar (t : TypeId) : CppAny → Option t.interp
  | .scalar u v => if h : u = t then some (h ▸ v) else none
  | _ => none

/-- Embeds `std::any_cast<std::vector<Tp>>` at element type `t`: succeeds with the
stored vector exactly when the stored `typeid` is `std::vector<t>`. -/
def CppAny.castVec (t : TypeId) : CppAny → Option (List t.interp)
  | .vec u vs => if h : u = t then some (h ▸ vs) else none
  | _ => none

/-- Embeds `VARIABLE_READ` bit of `enum AccessLevel` (variable.hpp line 30). -/
def VARIABLE_READ : Nat := 1

/-- Embeds `VARIABLE_WRITE` bit of `enum AccessLevel` (variable.hpp line 31). -/
def VARIABLE_WRITE : Nat := 2

/-- Embeds `rm::VariableType` (variable.hpp lines 35-112).  Field defaults embed the
in-class initializers: `ns{1U}`, empty strings, empty `std::any`,
default `DataType` and `_size{}` equal to `0`. -/
structure VariableType where
  ns : Nat := 1
  browse_name : String := ""
  display_name : String := ""
  description : String := ""
  value : CppAny := .anyNone
  data_type : Nat := 0
  sz : Nat := 0

/-- Scalar constructor `VariableType(Tp val)` (variable.hpp line 80): stores
the value, tags it with `DataType(typeid(DecayT))`, and sets `_size` to 1. -/
def VariableType.ofScalar (t : TypeId) (v : t.interp) : VariableType :=
  { value := .scalar t v, data_type := DataType t, sz := 1 }

/-- Vector constructor `VariableType(const std::vector<Tp> &arr)`
(variable.hpp line 89): stores the vector, tags it with
`DataType(typeid(Tp))`, and sets the `UA_UInt32` field `_size` to
`arr.size()`, which narrows `size_t` modulo `2^32`. -/
def VariableType.ofVector (t : TypeId) (vs : List t.interp) : VariableType :=
  { value := .vec t vs, data_type := DataType t, sz := vs.length % 2 ^ 32 }

/-- Embeds `VariableType::cast<Tp>` at scalar type (variable.hpp line 99):
`std::any_cast<Tp>(val.data())`. -/
def VariableType.cast (t : TypeId) (val : VariableType) : Option t.interp :=
  val.value.castScalar t

/-- Embeds `VariableType::data()` (variable.hpp line 102). -/
def VariableType.data (v : VariableType) : CppAny := v.value

/-- Embeds `VariableType::getDataType()` (variable.hpp line 105). -/
def VariableType.getDataType (v : VariableType) : Nat := v.data_type

/-- Embeds `VariableType::empty()` (variable.hpp line 108): `_size == 0`. -/
def VariableType.empty (v : VariableType) : Bool := v.sz == 0

/-- Embeds `VariableType::size()` (variable.hpp line 111). -/
def VariableType.size (v : VariableType) : Nat := v.sz

/-- Embeds `rm::Variable` (variable.hpp lines 115-254).  Field defaults embed the
in-class initializers; in particular `access_level{}` is `0` for a
default-constructed `Variable`. -/
structure Variable where
  ns : Nat := 1
  browse_name : String := ""
  display_name : String := ""
  description : String := ""
  access_level : Nat := 0
  vtype : VariableType := {}
  value : CppAny := .anyNone
  data_type : Nat := 0
  sz : Nat := 0

/-- Scalar constructor `Variable(Tp val)` (variable.hpp line 128): sets
`access_level` to `3U`, stores the value, tags it with
`DataType(typeid(DecayT))`, and sets `_size` to 1. -/
def Variable.ofScalar (t : TypeId) (v : t.interp) : Variable :=
  { access_level := 3, value := .scalar t v, data_type := DataType t, sz := 1 }

/-- Vector constructor `Variable(const std::vector<Tp> &arr)` (variable.hpp
line 137): sets `access_level` to `3U`, stores the vector, tags it with
`DataType(typeid(Tp))`, and sets `_size` to
`static_cast<UA_UInt32>(arr.size())`, i.e. `arr.size()` modulo `2^32`. -/
def Variable.ofVector (t : TypeId) (vs : List t.interp) : Variable :=
  { access_level := 3, value := .vec t vs, data_type := DataType t,
    sz := vs.length % 2 ^ 32 }

/-- The private constructor `Variable(const VariableType &vtype)`
(variable.hpp line 238), reached through `Variable::from` (line 145): sets
`access_level` to `3U`, copies `_type`, `_value`, `_data_type` and `_size`
from the variable type. -/
def Variable.fromType (vt : VariableType) : Variable :=
  { access_level := 3, vtype := vt, value := vt.data,
    data_type := vt.getDataType, sz := vt.size }

/-- Embeds `Variable::cast<Tp>` at scalar type, and the scalar conversion
`operator Tp()` (variable.hpp lines 176, 185, 189): all three are
`std::any_cast<Tp>` on the stored value. -/
def Variable.cast (t : TypeId) (val : Variable) : Option t.interp :=
  val.value.castScalar t

/-- Embeds `Variable::cast<std::vector<Tp>>` and the vector conversion
`operator std::vector<Tp>()` (variable.hpp line 193). -/
def Variable.castVec (t : TypeId) (val : Variable) : Option (List t.interp) :=
  val.value.castVec t

/-- Embeds `Variable::type()` (variable.hpp line 201). -/
def Variable.type (v : Variable) : VariableType := v.vtype

/-- Embeds `Variable::data()` (variable.hpp line 204). -/
def Variable.data (v : Variable) : CppAny := v.value

/-- Embeds `Variable::getDataType()` (variable.hpp line 207). -/
def Variable.getDataType (v : Variable) : Nat := v.data_type

/-- Embeds `Variable::empty()` (variable.hpp line 166): `_size == 0`. -/
def Variable.empty (v : Variable) : Bool := v.sz == 0

/-- Embeds `Variable::size()` (variable.hpp line 210). -/
def Variable.size (v : Variable) : Nat := v.sz

/-! Client monitored-item bookkeeping (client.hpp). -/

/-- The `_monitor_map` field of `rm::Client` (client.hpp line 246), an
`std::unordered_map<UA_UInt32, std::array<UA_UInt32, 2>>` mapping a node id
to the `[SubId, MonitorId]` pair, embedded as an association list with
unique keys. -/
abbrev MonitorMap : Type := List (Nat × (Nat × Nat))

/-- Embeds `unordered_map::count(node) > 0`: membership of a key. -/
def MonitorMap.containsNode (node : Nat) (m : MonitorMap) : Bool :=
  (List.any m fun p => p.1 == node)

/-- Embeds `unordered_map::at` / `find`: lookup of a key. -/
def MonitorMap.findNode (node : Nat) (m : MonitorMap) : Option (Nat × Nat) :=
  (List.find? (fun p => p.1 == node) m).map Prod.snd

/-- Embeds `unordered_map::operator[]` followed by assignment: record `ids` under
`node`, replacing any existing entry. -/
def MonitorMap.store (node : Nat) (ids : Nat × Nat) (m : MonitorMap) : MonitorMap :=
  (node, ids) :: List.filter (fun p => p.1 != node) m

/-- Embeds `unordered_map::erase(node)`: drop the entry for `node`. -/
def MonitorMap.eraseNode (node : Nat) (m : MonitorMap) : MonitorMap :=
  List.filter (fun p => p.1 != node) m

/-- Client state relevant to monitored-item bookkeeping. -/
structure ClientState where
  monitor_map : MonitorMap := []

/-- Modelled from the spec: the body of `Client::monitor` (client.cpp is not
under src/; client.hpp lines 222-232 declare it and document the map layout
`[NodeId : [SubId, MonitorId]]`).  Per the spec's "client lifecycle wrapper
with monitored-item bookkeeping", a monitor call delegates to the wrapped
library's create-monitored-item operation; `libResult` is that call's
outcome (`some (subId, monId)` on a good status, `none` otherwise).  On
success the client records `node ↦ [subId, monId]` in `_monitor_map` and
returns `true`; on failure it records nothing and returns `false`. -/
def ClientState.monitor (c : ClientState) (node : Nat)
    (libResult : Option (Nat × Nat)) : Bool × ClientState :=
  match libResult with
  | some ids => (true, { monitor_map := MonitorMap.store node ids c.monitor_map })
  | none => (false, c)

/-- Modelled from the spec: the body of `Client::remove` (client.cpp is not
under src/; client.hpp lines 234-240 declare it: "remove the monitored
item", returning whether it was removed).  It succeeds exactly when `node`
is recorded in `_monitor_map`, erasing that entry; otherwise it returns
`false` with the map unchanged. -/
def ClientState.remove (c : ClientState) (node : Nat) : Bool × ClientState :=
  if MonitorMap.containsNode node c.monitor_map then
    (true, { monitor_map := MonitorMap.eraseNode node c.monitor_map })
  else
    (false, c)

/-- Deleted/defaulted special members of a class, read off a class
definition. -/
structure SpecialMembers where
  copyCtorDeleted : Bool
  moveCtorDefaulted : Bool
  copyAssignDeleted : Bool
  moveAssignDefaulted : Bool
  deriving DecidableEq, Repr

/-- Special members of `rm::Client` (client.hpp lines 117-121):
copy constructor and copy assignment `= delete`, move constructor and move
assignment `= default`. -/
def clientSpecialMembers : SpecialMembers :=
  { copyCtorDeleted := true, moveCtorDefaulted := true,
    copyAssignDeleted := true, moveAssignDefaulted := true }

/-- Special members of `rm::ClientTimer` (client.hpp lines 268-272):
copy constructor and copy assignment `= delete`, move constructor and move
assignment `= default`. -/
def clientTimerSpecialMembers : SpecialMembers :=
  { copyCtorDeleted := true, moveCtorDefaulted := true,
    copyAssignDeleted := true, moveAssignDefaulted := true }

/-- Embeds `rm::ClientTimer` (client.hpp lines 254-283), with an `active` flag
tracking whether the underlying repeated callback is still registered with
the client. -/
structure ClientTimer where
  id : Nat := 0
  active : Bool := true

/-- Modelled from the spec: the body of `ClientTimer::cancel` (client.cpp is
not under src/; client.hpp line 277 declares it as "cancel the timer").  It
deregisters the repeated callback, after which the timer is no longer
active. -/
def ClientTimer.cancel (t : ClientTimer) : ClientTimer :=
  { t with active := false }

/-- The destructor `~ClientTimer() { cancel(); }` (client.hpp line 274). -/
def ClientTimer.dtor (t : ClientTimer) : ClientTimer := t.cancel

/-! The UDP-UADP publisher (src/publisher.cpp). -/

/-- Embeds `UA_STATUSCODE_GOOD` of the wrapped library. -/
def UA_STATUSCODE_GOOD : Nat := 0

/-- The error code `RMVL_StsNullPtr` raised through `RMVL_Error`
(publisher.cpp line 107). -/
inductive RmvlError
  | stsNullPtr
  deriving DecidableEq, Repr

/-- One call into the wrapped library made by `publish`
(publisher.cpp lines 116, 141, 147, 159). -/
inductive LibCall
  | addDataSetField
  | addWriterGroup
  | setWriterGroupOperational
  | addDataSetWriter
  deriving DecidableEq, Repr

/-- The DataSetField loop of `publish` (publisher.cpp lines 112-123): one
`UA_Server_addDataSetField` call per element of `datas`, aborting at the
first call whose result is not `UA_STATUSCODE_GOOD`.  Each element of
`dsfStatus` is the status the library returns for the corresponding call;
the result is the success flag together with the trace of calls made. -/
def publishFields : List Nat → Bool × List LibCall
  | [] => (true, [])
  | s :: rest =>
    if s = UA_STATUSCODE_GOOD then
      let r := publishFields rest
      (r.1, .addDataSetField :: r.2)
    else
      (false, [.addDataSetField])

/-- Embeds `Publisher<TransportID::UDP_UADP>::publish` (publisher.cpp lines
103-166).  `srvNull` embeds `_server == nullptr`, `connNull` embeds
`UA_NodeId_isNull(&_connection_id)` (the constructor failed to add the
PubSub connection); `dsfStatus`, `wgStatus`, `opStatus` and `dswStatus` are
the statuses the wrapped library returns for the DataSetField additions, the
WriterGroup addition, setting the WriterGroup operational, and the
DataSetWriter addition.  The result is `Except.error RMVL_StsNullPtr` for
the `RMVL_Error` call, otherwise the returned boolean together with the
trace of library calls made. -/
def publish (srvNull connNull : Bool) (dsfStatus : List Nat)
    (wgStatus opStatus dswStatus : Nat) :
    Except RmvlError (Bool × List LibCall) :=
  if srvNull then .error .stsNullPtr
  else if connNull then .ok (false, [])
  else
    let r := publishFields dsfStatus
    if r.1 = false then .ok (false, r.2)
    else if wgStatus ≠ UA_STATUSCODE_GOOD then
      .ok (false, r.2 ++ [.addWriterGroup])
    else if opStatus ≠ UA_STATUSCODE_GOOD then
      .ok (false, r.2 ++ [.addWriterGroup, .setWriterGroupOperational])
    else if dswStatus ≠ UA_STATUSCODE_GOOD then
      .ok (false, r.2 ++ [.addWriterGroup, .setWriterGroupOperational, .addDataSetWriter])
    else
      .ok (true, r.2 ++ [.addWriterGroup, .setWriterGroupOperational, .addDataSetWriter])

/-- The returned boolean of `publish`, with `none` for the exception path. -/
def publishFlag (srvNull connNull : Bool) (dsfStatus : List Nat)
    (wgStatus opStatus dswStatus : Nat) : Option Bool :=
  (publish srvNull connNull dsfStatus wgStatus opStatus dswStatus).toOption.map Prod.fst

/-- The trace of library calls `publish` makes, with `none` for the
exception path. -/
def publishTrace (srvNull connNull : Bool) (dsfStatus : List Nat)
    (wgStatus opStatus dswStatus : Nat) : Option (List LibCall) :=
  (publish srvNull connNull dsfStatus wgStatus opStatus dswStatus).toOption.map Prod.snd

/-- The PubSub connection's publisher id (publisher.cpp line 72):
`_strhash(_name + "Connection") % 0x8000000u`.  `_strhash` is declared in
utilities.hpp, which is not under src/, so it is kept abstract as a
parameter. -/
def publisherId (strhash : String → Nat) (name : String) : Nat :=
  strhash (name ++ "Connection") % 0x8000000

/-- The writer-group id (publisher.cpp line 130):
`_strhash(_name + "WriterGroup") % 0x8000u`. -/
def writerGroupId (strhash : String → Nat) (name : String) : Nat :=
  strhash (name ++ "WriterGroup") % 0x8000

/-- The data-set-writer id (publisher.cpp line 157):
`_strhash(_name + "DataSetWriter") % 0x8000u`. -/
def dataSetWriterId (strhash : String → Nat) (name : String) : Nat :=
  strhash (name ++ "DataSetWriter") % 0x8000

/-! Helper lemmas shared by the claim theorems. -/

theorem castScalar_scalar (t : TypeId) (v : t.interp) :
    (CppAny.scalar t v).castScalar t = some v := by
  simp [CppAny.castScalar]

theorem castVec_vec (t : TypeId) (vs : List t.interp) :
    (CppAny.vec t vs).castVec t = some vs := by
  simp [CppAny.castVec]

theorem publishFields_fst_true_iff (l : List Nat) :
    (publishFields l).1 = true ↔ ∀ s ∈ l, s = UA_STATUSCODE_GOOD := by
  induction l with
  | nil => simp [publishFields]
  | cons s rest ih =>
    by_cases h : s = UA_STATUSCODE_GOOD
    · simp [publishFields, h, ih]
    · simp [publishFields, h]

theorem publishFields_snd_all_good (l : List Nat)
    (h : ∀ s ∈ l, s = UA_STATUSCODE_GOOD) :
    (publishFields l).2 = List.replicate l.length LibCall.addDataSetField := by
  induction l with
  | nil => simp [publishFields]
  | cons s rest ih =>
    have hs : s = UA_STATUSCODE_GOOD := h s (by simp)
    have hrest : ∀ x ∈ rest, x = UA_STATUSCODE_GOOD := fun x hx => h x (by simp [hx])
    simp [publishFields, hs, ih hrest, List.replicate_succ]

theorem publish_not_null (dsf : List Nat) (wg op dsw : Nat) :
    publish false false dsf wg op dsw =
      (if (publishFields dsf).1 = false then
        Except.ok (false, (publishFields dsf).2)
      else if wg ≠ UA_STATUSCODE_GOOD then
        Except.ok (false, (publishFields dsf).2 ++ [LibCall.addWriterGroup])
      else if op ≠ UA_STATUSCODE_GOOD then
        Except.ok (false, (publishFields dsf).2 ++
          [LibCall.addWriterGroup, LibCall.setWriterGroupOperational])
      else if dsw ≠ UA_STATUSCODE_GOOD then
        Except.ok (false, (publishFields dsf).2 ++
          [LibCall.addWriterGroup, LibCall.setWriterGroupOperational, LibCall.addDataSetWriter])
      else
        Except.ok (true, (publishFields dsf).2 ++
          [LibCall.addWriterGroup, LibCall.setWriterGroupOperational, LibCall.addDataSetWriter])) :=
  rfl

theorem size_ofVector (t : TypeId) (vs : List t.interp) :
    (Variable.ofVector t vs).size = vs.length % 2 ^ 32 := rfl

theorem empty_ofVector (t : TypeId) (vs : List t.interp) :
    (Variable.ofVector t vs).empty = (vs.length % 2 ^ 32 == 0) := rfl

theorem sizeT_ofVector (t : TypeId) (vs : List t.interp) :
    (VariableType.ofVector t vs).size = vs.length % 2 ^ 32 := rfl

theorem emptyT_ofVector (t : TypeId) (vs : List t.interp) :
    (VariableType.ofVector t vs).empty = (vs.length % 2 ^ 32 == 0) := rfl

theorem findNode_store (node : Nat) (ids : Nat × Nat) (m : MonitorMap) :
    MonitorMap.findNode node (MonitorMap.store node ids m) = some ids := by
  simp [MonitorMap.findNode, MonitorMap.store, List.find?]

theorem containsNode_eraseNode (node : Nat) (m : MonitorMap) :
    MonitorMap.containsNode node (MonitorMap.eraseNode node m) = false := by
  induction m with
  | nil => rfl
  | cons p rest ih =>
    by_cases h : p.1 = node
    · simp [MonitorMap.eraseNode, MonitorMap.containsNode, h, ih]
    · simp [MonitorMap.eraseNode, MonitorMap.containsNode, h, ih]

/-! Claim theorems. -/

/-- Claim C1: with the preconditions satisfied (non-null server, non-null
PubSub connection node id), `Publisher<TransportID::UDP_UADP>::publish`
returns `true` if and only if every underlying library call it makes — each
`UA_Server_addDataSetField`, `UA_Server_addWriterGroup`,
`UA_Server_setWriterGroupOperational` and `UA_Server_addDataSetWriter` —
returns the good status code; if any returns a non-good status, `publish`
returns `false`. -/
theorem publish_true_iff_all_good (dsfStatus : List Nat)
    (wgStatus opStatus dswStatus : Nat) :
    publishFlag false false dsfStatus wgStatus opStatus dswStatus = some true ↔
      ((∀ s ∈ dsfStatus, s = UA_STATUSCODE_GOOD) ∧ wgStatus = UA_STATUSCODE_GOOD ∧
        opStatus = UA_STATUSCODE_GOOD ∧ dswStatus = UA_STATUSCODE_GOOD) := by
  constructor
  · intro h
    rw [publishFlag, publish_not_null] at h
    by_cases h1 : (publishFields dsfStatus).1 = false
    · rw [if_pos h1] at h
      exact absurd h (by simp [Except.toOption])
    · have htrue : (publishFields dsfStatus).1 = true := by
        cases hb : (publishFields dsfStatus).1
        · exact absurd hb h1
        · rfl
      have hdsf := (publishFields_fst_true_iff dsfStatus).mp htrue
      rw [if_neg h1] at h
      by_cases hwg : wgStatus = UA_STATUSCODE_GOOD
      · rw [if_neg (by simp [hwg])] at h
        by_cases hop : opStatus = UA_STATUSCODE_GOOD
        · rw [if_neg (by simp [hop])] at h
          by_cases hdsw : dswStatus = UA_STATUSCODE_GOOD
          · exact ⟨hdsf, hwg, hop, hdsw⟩
          · rw [if_pos hdsw] at h
            exact absurd h (by simp [Except.toOption])
        · rw [if_pos hop] at h
          exact absurd h (by simp [Except.toOption])
      · rw [if_pos hwg] at h
        exact absurd h (by simp [Except.toOption])
  · rintro ⟨hdsf, hwg, hop, hdsw⟩
    have h1 : (publishFields dsfStatus).1 = true :=
      (publishFields_fst_true_iff dsfStatus).mpr hdsf
    rw [publishFlag, publish_not_null, if_neg (by simp [h1]),
      if_neg (by simp [hwg]), if_neg (by simp [hop]), if_neg (by simp [hdsw])]
    rfl

/-- Claim C1 witness: a concrete run with two good DataSetField statuses and
good statuses for the remaining three calls returns `true`. -/
theorem publish_true_iff_all_good_witness :
    publishFlag false false [UA_STATUSCODE_GOOD, UA_STATUSCODE_GOOD]
      UA_STATUSCODE_GOOD UA_STATUSCODE_GOOD UA_STATUSCODE_GOOD = some true :=
  (publish_true_iff_all_good [UA_STATUSCODE_GOOD, UA_STATUSCODE_GOOD]
    UA_STATUSCODE_GOOD UA_STATUSCODE_GOOD UA_STATUSCODE_GOOD).mpr
    ⟨by decide, rfl, rfl, rfl⟩

/-- Claim C2 counterexample: `publish` is not a single delegation into the
wrapped library.  On the concrete input of two data sets with all library
statuses good, it makes five library calls (two DataSetField additions, the
WriterGroup addition, setting the WriterGroup operational, and the
DataSetWriter addition), not one. -/
theorem publish_not_single_call_cex :
    publishTrace false false [UA_STATUSCODE_GOOD, UA_STATUSCODE_GOOD]
        UA_STATUSCODE_GOOD UA_STATUSCODE_GOOD UA_STATUSCODE_GOOD =
      some [LibCall.addDataSetField, LibCall.addDataSetField, LibCall.addWriterGroup,
        LibCall.setWriterGroupOperational, LibCall.addDataSetWriter] ∧
    List.length [LibCall.addDataSetField, LibCall.addDataSetField, LibCall.addWriterGroup,
        LibCall.setWriterGroupOperational, LibCall.addDataSetWriter] ≠ 1 := by
  exact ⟨rfl, by decide⟩

/-- Claim C2 (amended): wrapper operations delegate to the wrapped library
with no original control logic, but `publish` is not a single call: when all
library statuses are good it performs exactly one `UA_Server_addDataSetField`
call per element of its input list, followed by the three calls
`UA_Server_addWriterGroup`, `UA_Server_setWriterGroupOperational` and
`UA_Server_addDataSetWriter`, in that order. -/
theorem publish_call_sequence (dsfStatus : List Nat)
    (wgStatus opStatus dswStatus : Nat)
    (hdsf : ∀ s ∈ dsfStatus, s = UA_STATUSCODE_GOOD)
    (hwg : wgStatus = UA_STATUSCODE_GOOD) (hop : opStatus = UA_STATUSCODE_GOOD)
    (hdsw : dswStatus = UA_STATUSCODE_GOOD) :
    publishTrace false false dsfStatus wgStatus opStatus dswStatus =
      some (List.replicate dsfStatus.length LibCall.addDataSetField ++
        [LibCall.addWriterGroup, LibCall.setWriterGroupOperational,
          LibCall.addDataSetWriter]) := by
  have h1 : (publishFields dsfStatus).1 = true :=
    (publishFields_fst_true_iff dsfStatus).mpr hdsf
  have h2 := publishFields_snd_all_good dsfStatus hdsf
  rw [publishTrace, publish_not_null]
  simp [h1, hwg, hop, hdsw, h2, Except.toOption]

/-- Claim C2 witness: the amended call-sequence theorem at one data set with
all statuses good. -/
theorem publish_call_sequence_witness :
    (∀ s ∈ [UA_STATUSCODE_GOOD], s = UA_STATUSCODE_GOOD) ∧
    publishTrace false false [UA_STATUSCODE_GOOD] UA_STATUSCODE_GOOD
        UA_STATUSCODE_GOOD UA_STATUSCODE_GOOD =
      some (List.replicate (List.length [UA_STATUSCODE_GOOD]) LibCall.addDataSetField ++
        [LibCall.addWriterGroup, LibCall.setWriterGroupOperational,
          LibCall.addDataSetWriter]) :=
  ⟨by decide, publish_call_sequence [UA_STATUSCODE_GOOD] UA_STATUSCODE_GOOD
    UA_STATUSCODE_GOOD UA_STATUSCODE_GOOD (by decide) rfl rfl rfl⟩

/-- Claim C4: `publish` checks its preconditions before any effect.  A null
underlying server pointer raises `RMVL_StsNullPtr` (the exception outcome),
and a null PubSub connection node id makes `publish` return `false` with an
empty trace: no DataSetField, WriterGroup or DataSetWriter is added. -/
theorem publish_preconditions (connNull : Bool) (dsfStatus : List Nat)
    (wgStatus opStatus dswStatus : Nat) :
    publish true connNull dsfStatus wgStatus opStatus dswStatus =
      Except.error RmvlError.stsNullPtr ∧
    publish false true dsfStatus wgStatus opStatus dswStatus =
      Except.ok (false, ([] : List LibCall)) :=
  ⟨rfl, rfl⟩

/-- Claim C5: the PubSub protocol identifiers are derived deterministically
from the publisher name — the connection's publisher id is the string hash
of `name + "Connection"` reduced modulo `2^27`, and the writer-group and
data-set-writer ids are the hashes of `name + "WriterGroup"` and
`name + "DataSetWriter"` reduced modulo `2^15` — hence each id is strictly
below its bound, and the same name always yields identical ids. -/
theorem pubsub_ids_bounded (strhash : String → Nat) (name : String) :
    publisherId strhash name = strhash (name ++ "Connection") % 2 ^ 27 ∧
    writerGroupId strhash name = strhash (name ++ "WriterGroup") % 2 ^ 15 ∧
    dataSetWriterId strhash name = strhash (name ++ "DataSetWriter") % 2 ^ 15 ∧
    publisherId strhash name < 2 ^ 27 ∧
    writerGroupId strhash name < 2 ^ 15 ∧
    dataSetWriterId strhash name < 2 ^ 15 := by
  refine ⟨rfl, rfl, rfl, ?_, ?_, ?_⟩ <;> exact Nat.mod_lt _ (by norm_num)

/-- Claim C3 counterexample: the clause `size() == arr.size()` of the
round-trip claim fails on a vector of `2^32` elements, because the
constructor narrows `arr.size()` to `UA_UInt32`: the stored size is `0`,
not `2^32`. -/
theorem variable_vector_size_cex :
    (Variable.ofVector TypeId.tInt32 (List.replicate (2 ^ 32) (0 : Int))).size ≠
      (List.replicate (2 ^ 32) (0 : Int)).length := by
  rw [size_ofVector, List.length_replicate, Nat.mod_self]
  norm_num

/-- Claim C3 (amended): for every scalar value `v` of an admitted fundamental
type `Tp` (or `const char *`), `Variable(v)` stores the tag
`DataType(typeid(DecayT))`, reports `size() == 1`, and `cast<Tp>` returns
`v`; for every vector `arr` of a non-`bool` fundamental element type with
`arr.size() < 2^32`, `Variable(arr)` reports `size() == arr.size()` (in
general `arr.size()` mod `2^32`, by the `UA_UInt32` narrowing) and casting
back to `std::vector<Tp>` returns `arr`. -/
theorem variable_roundtrip (t : TypeId) (v : t.interp)
    (u : TypeId) (vs : List u.interp)
    (_hu : u ≠ TypeId.tBool) (_hcs : u ≠ TypeId.tCString)
    (hlen : vs.length < 2 ^ 32) :
    (Variable.ofScalar t v).getDataType = DataType t ∧
    (Variable.ofScalar t v).size = 1 ∧
    Variable.cast t (Variable.ofScalar t v) = some v ∧
    (Variable.ofVector u vs).size = vs.length ∧
    Variable.castVec u (Variable.ofVector u vs) = some vs := by
  refine ⟨rfl, rfl, castScalar_scalar t v, ?_, castVec_vec u vs⟩
  exact (size_ofVector u vs).trans (Nat.mod_eq_of_lt hlen)

/-- Claim C3 witness: the round trip at the scalar `int` value `7` and the
`int` vector `[1, 2, 3]`. -/
theorem variable_roundtrip_witness :
    TypeId.tInt32 ≠ TypeId.tBool ∧ TypeId.tInt32 ≠ TypeId.tCString ∧
    List.length [(1 : Int), 2, 3] < 2 ^ 32 ∧
    ((Variable.ofScalar TypeId.tInt32 (7 : Int)).getDataType = DataType TypeId.tInt32 ∧
      (Variable.ofScalar TypeId.tInt32 (7 : Int)).size = 1 ∧
      Variable.cast TypeId.tInt32 (Variable.ofScalar TypeId.tInt32 (7 : Int)) = some 7 ∧
      (Variable.ofVector TypeId.tInt32 [(1 : Int), 2, 3]).size =
        List.length [(1 : Int), 2, 3] ∧
      Variable.castVec TypeId.tInt32 (Variable.ofVector TypeId.tInt32 [(1 : Int), 2, 3]) =
        some [(1 : Int), 2, 3]) :=
  ⟨by decide, by decide, by decide,
    variable_roundtrip TypeId.tInt32 (7 : Int) TypeId.tInt32 [(1 : Int), 2, 3]
      (by decide) (by decide) (by decide)⟩

/-- Claim C6: `Variable::from(vtype)` is a pass-through copy of the variable
type's defaults — same stored data, same runtime data-type tag, same size,
`type()` returning `vtype` itself — so it is empty exactly when `vtype` is. -/
theorem variable_from_type_passthrough (vt : VariableType) :
    (Variable.fromType vt).data = vt.data ∧
    (Variable.fromType vt).getDataType = vt.getDataType ∧
    (Variable.fromType vt).size = vt.size ∧
    (Variable.fromType vt).type = vt ∧
    (Variable.fromType vt).empty = vt.empty :=
  ⟨rfl, rfl, rfl, rfl, rfl⟩

/-- Claim C9: every value-carrying `Variable` constructor — scalar, vector,
and `Variable::from` on a `VariableType` — sets `access_level` to `3`, the
disjunction of the `VARIABLE_READ` and `VARIABLE_WRITE` bits, while a
default-constructed `Variable` has `access_level` `0`. -/
theorem variable_access_level_set (t : TypeId) (v : t.interp)
    (u : TypeId) (vs : List u.interp) (vt : VariableType) :
    VARIABLE_READ ||| VARIABLE_WRITE = 3 ∧
    (Variable.ofScalar t v).access_level = VARIABLE_READ ||| VARIABLE_WRITE ∧
    (Variable.ofVector u vs).access_level = VARIABLE_READ ||| VARIABLE_WRITE ∧
    (Variable.fromType vt).access_level = VARIABLE_READ ||| VARIABLE_WRITE ∧
    ({} : Variable).access_level = 0 :=
  ⟨rfl, rfl, rfl, rfl, rfl⟩

/-- Claim C10 counterexample: the clause "a vector of length `n > 0` yields
`size n` and `empty()` false" fails on a vector of `2^32` elements: its
length is positive, yet the `UA_UInt32` narrowing makes the stored size `0`
and `empty()` true. -/
theorem vartype_vector_empty_cex :
    0 < (List.replicate (2 ^ 32) (0 : Int)).length ∧
    (VariableType.ofVector TypeId.tInt32 (List.replicate (2 ^ 32) (0 : Int))).empty =
      true := by
  constructor
  · rw [List.length_replicate]
    norm_num
  · rw [emptyT_ofVector, List.length_replicate, Nat.mod_self]
    rfl

/-- Claim C10 (amended): for both `Variable` and `VariableType`, `empty()`
returns true exactly when `size() == 0`; a default-constructed object is
empty with size `0`; a scalar-constructed one has size `1` and is not empty;
one constructed from a vector of length `n < 2^32` has size `n` and is empty
exactly when `n = 0` (for `n ≥ 2^32` the size is `n` mod `2^32`). -/
theorem empty_iff_size_zero (v : Variable) (w : VariableType)
    (t : TypeId) (x : t.interp) (u : TypeId) (vs : List u.interp)
    (hlen : vs.length < 2 ^ 32) :
    (v.empty = true ↔ v.size = 0) ∧
    (w.empty = true ↔ w.size = 0) ∧
    ({} : Variable).size = 0 ∧ ({} : Variable).empty = true ∧
    ({} : VariableType).size = 0 ∧ ({} : VariableType).empty = true ∧
    (Variable.ofScalar t x).size = 1 ∧ (Variable.ofScalar t x).empty = false ∧
    (VariableType.ofScalar t x).size = 1 ∧
    (VariableType.ofScalar t x).empty = false ∧
    (Variable.ofVector u vs).size = vs.length ∧
    ((Variable.ofVector u vs).empty = true ↔ vs.length = 0) ∧
    (VariableType.ofVector u vs).size = vs.length ∧
    ((VariableType.ofVector u vs).empty = true ↔ vs.length = 0) := by
  have hmod : vs.length % 2 ^ 32 = vs.length := Nat.mod_eq_of_lt hlen
  refine ⟨?_, ?_, rfl, rfl, rfl, rfl, rfl, rfl, rfl, rfl, ?_, ?_, ?_, ?_⟩
  · simp [Variable.empty, Variable.size]
  · simp [VariableType.empty, VariableType.size]
  · exact (size_ofVector u vs).trans hmod
  · rw [empty_ofVector, hmod]
    simp
  · exact (sizeT_ofVector u vs).trans hmod
  · rw [emptyT_ofVector, hmod]
    simp

/-- Claim C10 witness: the amended size/emptiness theorem at a
default-constructed `Variable`, a default-constructed `VariableType`, the
scalar `true`, and the `int` vector `[4, 5]`. -/
theorem empty_iff_size_zero_witness :
    List.length [(4 : Int), 5] < 2 ^ 32 ∧
    ((({} : Variable).empty = true ↔ ({} : Variable).size = 0) ∧
      (({} : VariableType).empty = true ↔ ({} : VariableType).size = 0) ∧
      ({} : Variable).size = 0 ∧ ({} : Variable).empty = true ∧
      ({} : VariableType).size = 0 ∧ ({} : VariableType).empty = true ∧
      (Variable.ofScalar TypeId.tBool true).size = 1 ∧
      (Variable.ofScalar TypeId.tBool true).empty = false ∧
      (VariableType.ofScalar TypeId.tBool true).size = 1 ∧
      (VariableType.ofScalar TypeId.tBool true).empty = false ∧
      (Variable.ofVector TypeId.tInt32 [(4 : Int), 5]).size =
        List.length [(4 : Int), 5] ∧
      ((Variable.ofVector TypeId.tInt32 [(4 : Int), 5]).empty = true ↔
        List.length [(4 : Int), 5] = 0) ∧
      (VariableType.ofVector TypeId.tInt32 [(4 : Int), 5]).size =
        List.length [(4 : Int), 5] ∧
      ((VariableType.ofVector TypeId.tInt32 [(4 : Int), 5]).empty = true ↔
        List.length [(4 : Int), 5] = 0)) :=
  ⟨by decide, empty_iff_size_zero {} {} TypeId.tBool true TypeId.tInt32
    [(4 : Int), 5] (by decide)⟩

/-- Claim C7: monitored-item bookkeeping.  A `Client::monitor` call that
returns `true` records the node in `_monitor_map`, mapped to the
subscription-id/monitored-item-id pair issued by the library (and a failed
one records nothing); `Client::remove(node)` returns `true` exactly when
`node` is currently recorded, erasing its entry, and returns `false` leaving
the map unchanged when it is not; after a `remove` the node is no longer
recorded. -/
theorem client_monitor_bookkeeping (c : ClientState) (node : Nat)
    (ids : Nat × Nat) :
    (c.monitor node (some ids)).1 = true ∧
    MonitorMap.findNode node ((c.monitor node (some ids)).2).monitor_map = some ids ∧
    (c.monitor node none).1 = false ∧
    (c.monitor node none).2 = c ∧
    ((c.remove node).1 = true ↔ MonitorMap.containsNode node c.monitor_map = true) ∧
    (MonitorMap.containsNode node c.monitor_map = false → c.remove node = (false, c)) ∧
    MonitorMap.containsNode node ((c.remove node).2).monitor_map = false := by
  refine ⟨rfl, findNode_store node ids c.monitor_map, rfl, rfl, ?_, ?_, ?_⟩
  · rw [ClientState.remove]
    split_ifs with h <;> simp [h]
  · intro h
    simp [ClientState.remove, h]
  · rw [ClientState.remove]
    split_ifs with h
    · simp [containsNode_eraseNode]
    · simpa using h

/-- Claim C7 witness: bookkeeping at the concrete client whose map holds
node `1` with ids `(2, 3)`, for node `1` and fresh ids `(4, 5)`. -/
theorem client_monitor_bookkeeping_witness :
    ((ClientState.mk [(1, (2, 3))]).monitor 1 (some (4, 5))).1 = true ∧
    MonitorMap.findNode 1
      (((ClientState.mk [(1, (2, 3))]).monitor 1 (some (4, 5))).2).monitor_map =
      some (4, 5) ∧
    ((ClientState.mk [(1, (2, 3))]).monitor 1 none).1 = false ∧
    ((ClientState.mk [(1, (2, 3))]).monitor 1 none).2 = ClientState.mk [(1, (2, 3))] ∧
    (((ClientState.mk [(1, (2, 3))]).remove 1).1 = true ↔
      MonitorMap.containsNode 1 (ClientState.mk [(1, (2, 3))]).monitor_map = true) ∧
    (MonitorMap.containsNode 1 (ClientState.mk [(1, (2, 3))]).monitor_map = false →
      (ClientState.mk [(1, (2, 3))]).remove 1 = (false, ClientState.mk [(1, (2, 3))])) ∧
    MonitorMap.containsNode 1
      (((ClientState.mk [(1, (2, 3))]).remove 1).2).monitor_map = false :=
  client_monitor_bookkeeping (ClientState.mk [(1, (2, 3))]) 1 (4, 5)

/-- Claim C8: RAII-style client lifecycle.  `Client` and `ClientTimer` have
deleted copy constructors and copy assignments but defaulted move
constructors and move assignments, and the `ClientTimer` destructor invokes
`cancel()`, so a destroyed timer is never left active. -/
theorem client_timer_raii (t : ClientTimer) :
    clientSpecialMembers.copyCtorDeleted = true ∧
    clientSpecialMembers.copyAssignDeleted = true ∧
    clientSpecialMembers.moveCtorDefaulted = true ∧
    clientSpecialMembers.moveAssignDefaulted = true ∧
    clientTimerSpecialMembers.copyCtorDeleted = true ∧
    clientTimerSpecialMembers.copyAssignDeleted = true ∧
    clientTimerSpecialMembers.moveCtorDefaulted = true ∧
    clientTimerSpecialMembers.moveAssignDefaulted = true ∧
    ClientTimer.dtor t = ClientTimer.cancel t ∧
    (ClientTimer.dtor t).active = false :=
  ⟨rfl, rfl, rfl, rfl, rfl, rfl, rfl, rfl, rfl, rfl⟩

end RmOpcua
